import Mathlib

/-!
# FloraID Pro — verification of the batch identification core

Shallow embedding of the FloraID Pro repository (TypeScript/React) into Lean 4.

Conventions of the embedding:
* JavaScript values that may be `undefined` at runtime are `Option`-valued.
  In particular, fields of the object produced by `JSON.parse` on the
  classifier response are `Option`-valued, because the source performs no
  field validation after parsing; the two user flags `isFavorite` and
  `isIncorrect` are declared optional in `types.ts` and are `Option Bool`.
* The external classification service and the browser geolocation API are
  modelled as explicit behaviour parameters passed to the embedded functions:
  the embedding describes exactly what the source code does with each
  possible behaviour of those collaborators.
* Durations are modelled in integer milliseconds; the duration of an item,
  measured in the source with `performance.now()`, is the geolocation wait plus
  the classification wait, because the source awaits the geolocation promise
  to completion before issuing the classification call.
* UI side effects that the claims mention are modelled as an event trace:
  `setBatchProgress` with a value, `onResult`, and `setError` with a
  non-null message each append one event.  `setError(null)` and pure
  style/state bookkeeping produce no event.
-/

deriving instance DecidableEq for Except

namespace FloraID

/-- Coordinates as produced by the geolocation success callback
(`{lat, lng}` in `Analyze.tsx`).  The numeric values are left abstract here. -/
structure Coords where
  lat : Int
  lng : Int
deriving DecidableEq, Repr

/-- `PlantProfile` from `src/types.ts`: a labeled reference profile with its
base64 sample images. -/
structure PlantProfile where
  id : String
  name : String
  scientificName : String
  isInvasive : Bool
  images : List String
  description : String
  dateCreated : Nat
deriving DecidableEq, Repr

/-- `PlantAnalysis` from `src/types.ts`, as constructed at runtime by
`captureAndAnalyze`.  Fields copied from the duck-typed service response are
`Option`-valued (the parsed JSON object may lack them); `isFavorite` and
`isIncorrect` are optional in `types.ts`. -/
structure PlantAnalysis where
  id : String
  name : Option String
  scientificName : Option String
  isInvasive : Option Bool
  confidence : Option Rat
  timestamp : Nat
  analysisTime : Rat
  coordinates : Option Coords
  imageUrl : String
  matchedProfileId : Option String
  isFavorite : Option Bool
  isIncorrect : Option Bool
deriving DecidableEq, Repr

/-! ## Classification Client (`src/unnamed/part_000`, `geminiService`) -/

/-- One entry of the profile manifest built by `analyzePlantWithContext`:
`{id, name, scientificName, isInvasive, imageCount: p.images.length}`. -/
structure ManifestEntry where
  id : String
  name : String
  scientificName : String
  isInvasive : Bool
  imageCount : Nat
deriving DecidableEq, Repr

/-- The manifest map from `analyzePlantWithContext`
(`profiles.map(p => ({id, name, scientificName, isInvasive, imageCount}))`). -/
def profileManifest (profiles : List PlantProfile) : List ManifestEntry :=
  profiles.map fun p =>
    { id := p.id
      name := p.name
      scientificName := p.scientificName
      isInvasive := p.isInvasive
      imageCount := p.images.length }

/-- The manifest entry built from one profile (the body of the map in
`profileManifest`). -/
def manifestEntry (p : PlantProfile) : ManifestEntry :=
  { id := p.id
    name := p.name
    scientificName := p.scientificName
    isInvasive := p.isInvasive
    imageCount := p.images.length }

/-- The object produced by `JSON.parse(result.text)`.  The source casts it to
`AnalysisResult` but performs no validation, so every field may be absent. -/
structure RawOutcome where
  name : Option String
  scientificName : Option String
  isInvasive : Option Bool
  confidence : Option Rat
  description : Option String
  matchedProfileId : Option String
deriving DecidableEq, Repr

/-- The text part of the external service response, as relevant to the
handling of it in the source: falsy text, text that `JSON.parse` rejects, or text
that parses to an object `o`. -/
inductive ServiceResponse where
  | noText
  | unparseable
  | parsed (o : RawOutcome)
deriving DecidableEq, Repr

/-- Behaviour of one `ai.models.generateContent` call: the promise either
rejects (network/transport failure) or resolves with a response. -/
inductive CallOutcome where
  | reject
  | resolve (resp : ServiceResponse)
deriving DecidableEq, Repr

/-- The distinct throw sites of `analyzePlantWithContext`, by source message:
`emptyDatabase` = "Training database is empty...", `identificationFailed` =
"Identification failed." (falsy response text), `parseError` = the exception
thrown by `JSON.parse`, `transport` = a rejection of the external call. -/
inductive ClassificationError where
  | emptyDatabase
  | identificationFailed
  | parseError
  | transport
deriving DecidableEq, Repr

/-- The inline image data of the request body: the source splits the data
URL at commas and takes chunk 1, falling back to the whole string when that
chunk is absent or empty (JS logical-or on a falsy string). -/
def stripDataUrl (base64Image : String) : String :=
  match (base64Image.splitOn ",")[1]? with
  | some s => if s = "" then base64Image else s
  | none => base64Image

/-- The request payload handed to `generateContent`: the inline image data
and the profile manifest embedded in the prompt text. -/
structure GenContentRequest where
  imageData : String
  manifest : List ManifestEntry
deriving DecidableEq, Repr

/-- The request `analyzePlantWithContext` builds for a given image and
profile list. -/
def classificationRequest (base64Image : String) (profiles : List PlantProfile) :
    GenContentRequest :=
  { imageData := stripDataUrl base64Image
    manifest := profileManifest profiles }

/-- `analyzePlantWithContext` from `src/unnamed/part_000`, parameterised by
the behaviour of the single external call it may issue.  Returns the
result of the promise (outcome or thrown error) together with the list of
external requests issued (so the request count is the list length). -/
def analyzePlantWithContext (base64Image : String) (profiles : List PlantProfile)
    (service : CallOutcome) : Except ClassificationError RawOutcome × List GenContentRequest :=
  if profiles.length = 0 then
    (Except.error ClassificationError.emptyDatabase, [])
  else
    let req := classificationRequest base64Image profiles
    match service with
    | CallOutcome.reject => (Except.error ClassificationError.transport, [req])
    | CallOutcome.resolve ServiceResponse.noText =>
        (Except.error ClassificationError.identificationFailed, [req])
    | CallOutcome.resolve ServiceResponse.unparseable =>
        (Except.error ClassificationError.parseError, [req])
    | CallOutcome.resolve (ServiceResponse.parsed o) => (Except.ok o, [req])

/-- A concrete reference profile used by concrete evaluations. -/
def pEx : PlantProfile :=
  { id := "p1"
    name := "Rose"
    scientificName := "Rosa"
    isInvasive := false
    images := ["imagebytes"]
    description := "thorny"
    dateCreated := 7 }

/-- A service response object whose `matchedProfileId` is a foreign id
("zzz"), not an id of any supplied profile and not the "unknown" sentinel. -/
def oForeign : RawOutcome :=
  { name := some "Rose"
    scientificName := some "Rosa"
    isInvasive := some false
    confidence := some 1
    description := some "match"
    matchedProfileId := some "zzz" }

/-- A parseable service response missing every required field (the parse of
the text `"{}"`). -/
def oMissing : RawOutcome :=
  { name := none
    scientificName := none
    isInvasive := none
    confidence := none
    description := none
    matchedProfileId := none }

/-- A compliant no-match service response: `matchedProfileId` is the
"unknown" sentinel. -/
def oUnknown : RawOutcome :=
  { name := some "No Database Match Found"
    scientificName := some "N/A"
    isInvasive := some false
    confidence := some 1
    description := some "not in database"
    matchedProfileId := some "unknown" }

/-- Replaces the content of one encoded sample image by the empty string. -/
def blankImage (_image : String) : String := ""

/-- A profile with the same scalar fields and the same number of sample
images, but with all image content erased. -/
def stripImages (p : PlantProfile) : PlantProfile :=
  { p with images := p.images.map blankImage }

/-- C2: for every image input, calling classify with an empty profile list
fails immediately with the EmptyDatabase error and issues zero external
calls, whatever the external service would have answered. -/
theorem classify_empty_database (base64Image : String) (service : CallOutcome) :
    analyzePlantWithContext base64Image [] service =
      (Except.error ClassificationError.emptyDatabase, []) ∧
    (analyzePlantWithContext base64Image [] service).2.length = 0 :=
  ⟨rfl, rfl⟩

/-- C7: the manifest sent to the external classifier has exactly one entry
per profile, each entry carrying exactly the id, common name, scientific
name, invasive flag and sample-image count of that profile, and the manifest
is unchanged when all reference image data is erased (so it never contains
the reference image data itself). -/
theorem manifest_fields_exact_and_image_free (ps : List PlantProfile) :
    (profileManifest ps).length = ps.length ∧
    (∀ i : Nat, (profileManifest ps)[i]? = (ps[i]?).map manifestEntry) ∧
    profileManifest (ps.map stripImages) = profileManifest ps ∧
    (∀ base64Image : String,
      (classificationRequest base64Image ps).manifest = profileManifest ps) := by
  refine ⟨by simp [profileManifest], ?_, ?_, fun _ => rfl⟩
  · intro i
    simp only [profileManifest, List.getElem?_map]
    rfl
  · simp [profileManifest, stripImages, List.map_map, Function.comp]

/-- C4 counterexample: with the single profile `pEx` (id "p1") supplied, a
service response carrying the foreign id "zzz" is returned by classify as a
successful outcome, although "zzz" is neither a supplied profile id nor the
"unknown" sentinel — the source performs no validation of
`matchedProfileId`. -/
theorem classify_foreign_id_counterexample :
    (analyzePlantWithContext "img" [pEx]
      (CallOutcome.resolve (ServiceResponse.parsed oForeign))).1 = Except.ok oForeign ∧
    oForeign.matchedProfileId = some "zzz" ∧
    (List.map PlantProfile.id [pEx]).contains "zzz" = false ∧
    "zzz" ≠ "unknown" := by decide

/-- C4 amended: classify passes the service-supplied `matchedProfileId` through
unvalidated, so the `matchedProfileId` of a successful outcome lies in the
supplied profile ids or equals the "unknown" sentinel exactly when the
response of the external service complied with that instruction. -/
theorem classify_id_passthrough (base64Image : String) (p : PlantProfile)
    (ps : List PlantProfile) (o : RawOutcome) (i : String)
    (hmatch : o.matchedProfileId = some i)
    (hcompliant : (List.map PlantProfile.id (p :: ps)).contains i = true ∨ i = "unknown") :
    ∃ r : RawOutcome,
      (analyzePlantWithContext base64Image (p :: ps)
        (CallOutcome.resolve (ServiceResponse.parsed o))).1 = Except.ok r ∧
      r.matchedProfileId = some i ∧
      ((List.map PlantProfile.id (p :: ps)).contains i = true ∨ i = "unknown") :=
  ⟨o, by simp [analyzePlantWithContext], hmatch, hcompliant⟩

/-- Witness for the amended C4 theorem at a concrete compliant response. -/
theorem classify_id_passthrough_witness :
    ∃ r : RawOutcome,
      (analyzePlantWithContext "img" [pEx]
        (CallOutcome.resolve (ServiceResponse.parsed oUnknown))).1 = Except.ok r ∧
      r.matchedProfileId = some "unknown" ∧
      ((List.map PlantProfile.id [pEx]).contains "unknown" = true ∨ "unknown" = "unknown") :=
  classify_id_passthrough "img" pEx [] oUnknown "unknown" (by decide) (Or.inr rfl)

/-- C5 counterexample: a parseable response missing every required field is
returned by classify as a successful outcome instead of failing with a
malformed-response error — after `JSON.parse` succeeds, the source checks no
field. -/
theorem classify_missing_fields_counterexample :
    (analyzePlantWithContext "img" [pEx]
      (CallOutcome.resolve (ServiceResponse.parsed oMissing))).1 = Except.ok oMissing ∧
    oMissing.name = none ∧ oMissing.scientificName = none ∧
    oMissing.isInvasive = none ∧ oMissing.confidence = none ∧
    oMissing.matchedProfileId = none := by decide

/-- C5 amended: for a non-empty profile list, classify fails when the
response text is empty (the "Identification failed." throw) and when the
text is not parseable JSON (the `JSON.parse` throw), but a parseable
response is returned as the outcome without any validation of its fields. -/
theorem classify_response_handling (base64Image : String) (p : PlantProfile)
    (ps : List PlantProfile) (o : RawOutcome) :
    (analyzePlantWithContext base64Image (p :: ps)
      (CallOutcome.resolve ServiceResponse.noText)).1 =
      Except.error ClassificationError.identificationFailed ∧
    (analyzePlantWithContext base64Image (p :: ps)
      (CallOutcome.resolve ServiceResponse.unparseable)).1 =
      Except.error ClassificationError.parseError ∧
    (analyzePlantWithContext base64Image (p :: ps)
      (CallOutcome.resolve (ServiceResponse.parsed o))).1 = Except.ok o := by
  refine ⟨?_, ?_, ?_⟩ <;> simp [analyzePlantWithContext]

/-! ## Geolocation Resolver and Batch Orchestrator (`src/components/Analyze.tsx`)

The geolocation await at `Analyze.tsx` wraps
`navigator.geolocation.getCurrentPosition(success, error, {timeout: 3000})`
in a promise whose executor runs the platform call.  Its observable
behaviours: the platform invokes the success callback (promise resolves with
coordinates), invokes the error callback — permission denial or
platform-reported timeout — (promise resolves with `undefined`), throws
synchronously because `navigator.geolocation` is absent (promise rejects),
or never invokes any callback (promise never settles; there is no competing
timer in the source). -/

/-- Behaviour of the platform geolocation call for one item. -/
inductive GeoBehavior where
  | answers (coords : Option Coords)
  | noCapability
  | silent
deriving DecidableEq, Repr

/-- The fate of the promise built around `getCurrentPosition`. -/
inductive GeoResult where
  | resolved (coords : Option Coords)
  | rejectedError
  | neverSettles
deriving DecidableEq, Repr

/-- The promise wrapper around `getCurrentPosition` in `captureAndAnalyze`:
both callbacks resolve (the error callback with `undefined`), a synchronous
throw rejects, and no callback means the promise never settles. -/
def awaitCoords : GeoBehavior → GeoResult
  | GeoBehavior.answers c => GeoResult.resolved c
  | GeoBehavior.noCapability => GeoResult.rejectedError
  | GeoBehavior.silent => GeoResult.neverSettles

/-- The environment of one item: the platform geolocation behaviour and its
callback delay in ms, the external classifier behaviour and its duration in
ms, the id produced by `Math.random().toString(36).substr(2, 9)`, and the
`Date.now()` timestamp. -/
structure ItemEnv where
  geo : GeoBehavior
  geoMs : Nat
  service : CallOutcome
  classifyMs : Nat
  genId : String
  now : Nat
deriving DecidableEq, Repr

/-- The messages `captureAndAnalyze` can pass to `setError`:
its own empty-database guard message, the message of the rejection raised
when the geolocation capability is absent, and the message of an error
thrown by `analyzePlantWithContext`. -/
inductive RunError where
  | emptyDatabaseUi
  | geoUnavailable
  | classify (e : ClassificationError)
deriving DecidableEq, Repr

/-- Observable collaborator calls: `setBatchProgress` with a value,
`onResult` with a record, and `setError` with a non-null message. -/
inductive Event where
  | progress (current total : Nat)
  | record (r : PlantAnalysis)
  | errorShown (e : RunError)
deriving DecidableEq, Repr

/-- The record literal passed to `onResult` on classification success.
`isFavorite` and `isIncorrect` are not assigned in the source, hence
`none`; `analysisTime` is `(endTime - startTime) / 1000` where the elapsed
milliseconds are the geolocation wait plus the classification wait, because
the source awaits the geolocation promise before issuing the classification
call. -/
def analysisRecord (image : String) (env : ItemEnv) (o : RawOutcome)
    (coords : Option Coords) : PlantAnalysis :=
  { id := env.genId
    name := o.name
    scientificName := o.scientificName
    isInvasive := o.isInvasive
    confidence := o.confidence
    timestamp := env.now
    analysisTime := ((env.geoMs + env.classifyMs : Nat) : Rat) / 1000
    coordinates := coords
    imageUrl := image
    matchedProfileId := o.matchedProfileId
    isFavorite := none
    isIncorrect := none }

/-- `captureAndAnalyze` from `Analyze.tsx` for an item whose image is
already in hand (the camera frame-grab branch is outside the modelled
claims).  Returns the events emitted for this item and whether the item
completed (`false` when the geolocation promise never settles, in which
case the whole run is stuck at this `await`). -/
def captureAndAnalyze (profiles : List PlantProfile) (image : String)
    (env : ItemEnv) : List Event × Bool :=
  if profiles.length = 0 then
    ([Event.errorShown RunError.emptyDatabaseUi], true)
  else
    match awaitCoords env.geo with
    | GeoResult.neverSettles => ([], false)
    | GeoResult.rejectedError => ([Event.errorShown RunError.geoUnavailable], true)
    | GeoResult.resolved coords =>
      match (analyzePlantWithContext image profiles env.service).1 with
      | Except.error e => ([Event.errorShown (RunError.classify e)], true)
      | Except.ok o => ([Event.record (analysisRecord image env o coords)], true)

/-- The sequential `for` loop of `handleFileUpload`: before item `i`
(0-based) it reports progress `(i+1, n)`, then awaits `captureAndAnalyze`;
a stuck item leaves the remaining items unprocessed.  The `FileReader`
step always resolves in the source (it installs no error handler), so the
item images are taken as given. -/
def runBatchFrom (profiles : List PlantProfile) (n : Nat) (i : Nat) :
    List (String × ItemEnv) → List Event
  | [] => []
  | item :: rest =>
    let step := captureAndAnalyze profiles item.1 item.2
    Event.progress (i + 1) n :: step.1 ++
      (if step.2 then runBatchFrom profiles n (i + 1) rest else [])

/-- `handleFileUpload` from `Analyze.tsx`: reports progress `(0, n)` and
then processes the files strictly sequentially. -/
def handleFileUpload (profiles : List PlantProfile)
    (items : List (String × ItemEnv)) : List Event :=
  Event.progress 0 items.length :: runBatchFrom profiles items.length 0 items

/-- Is this event an `onResult` hand-off? -/
def isRecordEvent : Event → Bool
  | Event.record _ => true
  | _ => false

/-- Is this event an error notification (`setError` with a message)? -/
def isErrorEvent : Event → Bool
  | Event.errorShown _ => true
  | _ => false

/-- Is this event the progress report that starts an item (current ≥ 1)? -/
def isAttemptEvent : Event → Bool
  | Event.progress c _ => c != 0
  | _ => false

/-- Number of records handed to the Result Sink in a trace. -/
def countRecords (t : List Event) : Nat := t.countP isRecordEvent

/-- Number of error notifications in a trace. -/
def countErrors (t : List Event) : Nat := t.countP isErrorEvent

/-- Number of items started in a trace. -/
def countAttempts (t : List Event) : Nat := t.countP isAttemptEvent

/-- The records handed to the Result Sink, in order of emission. -/
def recordOf : Event → Option PlantAnalysis
  | Event.record r => some r
  | _ => none

/-- All records in a trace, in emission order. -/
def emittedRecords (t : List Event) : List PlantAnalysis := t.filterMap recordOf

/-- The `analysisTime` values of the emitted records. -/
def analysisTimes (t : List Event) : List Rat :=
  (emittedRecords t).map PlantAnalysis.analysisTime

/-- The pair of user flags of a record. -/
def pairFlags (r : PlantAnalysis) : Option Bool × Option Bool :=
  (r.isFavorite, r.isIncorrect)

/-- The user-flag pairs of the emitted records. -/
def recordFlags (t : List Event) : List (Option Bool × Option Bool) :=
  (emittedRecords t).map pairFlags

/-- Does this item environment make the item emit a record (geolocation
callback fires and the classifier resolves with parseable text)? -/
def envRecords (env : ItemEnv) : Bool :=
  match env.geo, env.service with
  | GeoBehavior.answers _, CallOutcome.resolve (ServiceResponse.parsed _) => true
  | _, _ => false

/-- Does this item environment make the item surface an error (given a
non-empty profile list)? -/
def envErrors (env : ItemEnv) : Bool :=
  match env.geo, env.service with
  | GeoBehavior.answers _, CallOutcome.resolve (ServiceResponse.parsed _) => false
  | GeoBehavior.answers _, _ => true
  | GeoBehavior.noCapability, _ => true
  | GeoBehavior.silent, _ => false

/-- An item environment whose classification succeeds. -/
def successEnv (coords : Option Coords) (gMs : Nat) (o : RawOutcome)
    (cMs : Nat) (gid : String) (ts : Nat) : ItemEnv :=
  { geo := GeoBehavior.answers coords
    geoMs := gMs
    service := CallOutcome.resolve (ServiceResponse.parsed o)
    classifyMs := cMs
    genId := gid
    now := ts }

/-- With a non-empty profile list, an item whose geolocation promise
settles always completes, emits exactly one record when the classifier
succeeds, exactly one error notification otherwise, and never emits a
progress event of its own. -/
theorem captureAndAnalyze_item_counts (p : PlantProfile) (ps : List PlantProfile)
    (image : String) (env : ItemEnv) (hg : env.geo ≠ GeoBehavior.silent) :
    (captureAndAnalyze (p :: ps) image env).2 = true ∧
    countRecords (captureAndAnalyze (p :: ps) image env).1 =
      (if envRecords env then 1 else 0) ∧
    countErrors (captureAndAnalyze (p :: ps) image env).1 =
      (if envErrors env then 1 else 0) ∧
    countAttempts (captureAndAnalyze (p :: ps) image env).1 = 0 := by
  obtain ⟨g, gms, svc, cms, gid, ts⟩ := env
  cases g with
  | silent => exact absurd rfl hg
  | noCapability =>
      simp [captureAndAnalyze, awaitCoords, envRecords, envErrors,
        countRecords, countErrors, countAttempts,
        isRecordEvent, isErrorEvent, isAttemptEvent]
  | answers c =>
      cases svc with
      | reject =>
          simp [captureAndAnalyze, awaitCoords, analyzePlantWithContext,
            envRecords, envErrors, countRecords, countErrors, countAttempts,
            isRecordEvent, isErrorEvent, isAttemptEvent]
      | resolve resp =>
          cases resp <;>
            simp [captureAndAnalyze, awaitCoords, analyzePlantWithContext,
              envRecords, envErrors, countRecords, countErrors, countAttempts,
              isRecordEvent, isErrorEvent, isAttemptEvent]

/-- Counting events over the sequential batch loop: with a non-empty
profile list and the geolocation promise of every item settling, the loop
attempts every item, emits one record per classifier success and one error
notification per failing item. -/
theorem runBatchFrom_counts (p : PlantProfile) (ps : List PlantProfile) (n : Nat)
    (items : List (String × ItemEnv)) :
    ∀ i : Nat, (∀ it ∈ items, it.2.geo ≠ GeoBehavior.silent) →
      countAttempts (runBatchFrom (p :: ps) n i items) = items.length ∧
      countRecords (runBatchFrom (p :: ps) n i items) =
        items.countP (fun it => envRecords it.2) ∧
      countErrors (runBatchFrom (p :: ps) n i items) =
        items.countP (fun it => envErrors it.2) := by
  induction items with
  | nil =>
      intro i _
      simp [runBatchFrom, countAttempts, countRecords, countErrors]
  | cons item rest ih =>
      intro i h
      obtain ⟨hc, hr, he, ha⟩ :=
        captureAndAnalyze_item_counts p ps item.1 item.2 (h item (by simp))
      obtain ⟨ra, rr, re⟩ := ih (i + 1) (fun it hit => h it (by simp [hit]))
      simp only [runBatchFrom, hc, if_true]
      simp only [countAttempts, countRecords, countErrors,
        List.countP_cons, List.countP_append] at *
      refine ⟨?_, ?_, ?_⟩
      · simp [isAttemptEvent, ra, ha]
        omega
      · simp [isRecordEvent, rr, hr]
        omega
      · simp [isErrorEvent, re, he]
        omega

/-- C1: with a non-empty profile list and the geolocation promise of every item
settling, a batch run attempts all `n` items regardless of per-item
classification failures; it hands the Result Sink exactly one record per
item whose classification succeeded and surfaces exactly one error
notification per failing item.  The single-image mode is the `n = 1`
instance: a failing single item yields zero records and one error
notification, and the run ends. -/
theorem batch_isolates_item_failures (p : PlantProfile) (ps : List PlantProfile)
    (items : List (String × ItemEnv))
    (hgeo : ∀ it ∈ items, it.2.geo ≠ GeoBehavior.silent) :
    countAttempts (handleFileUpload (p :: ps) items) = items.length ∧
    countRecords (handleFileUpload (p :: ps) items) =
      items.countP (fun it => envRecords it.2) ∧
    countErrors (handleFileUpload (p :: ps) items) =
      items.countP (fun it => envErrors it.2) := by
  have h := runBatchFrom_counts p ps items.length items 0 hgeo
  simpa [handleFileUpload, countAttempts, countRecords, countErrors,
    List.countP_cons, isAttemptEvent, isRecordEvent, isErrorEvent] using h

/-- A successful item environment used in concrete runs. -/
def envOk : ItemEnv := successEnv none 0 oUnknown 500 "r1" 10

/-- An item environment whose external classification call rejects. -/
def envFail : ItemEnv :=
  { geo := GeoBehavior.answers none
    geoMs := 0
    service := CallOutcome.reject
    classifyMs := 500
    genId := "r2"
    now := 10 }

/-- A five-item batch whose third item fails. -/
def batchEx : List (String × ItemEnv) :=
  [("i1", envOk), ("i2", envOk), ("i3", envFail), ("i4", envOk), ("i5", envOk)]

/-- A single-image run whose only item fails. -/
def singleFailEx : List (String × ItemEnv) := [("s1", envFail)]

/-- Witness for C1: in the five-item batch whose third item fails, all five
items are attempted, four records are produced and exactly one error is
surfaced; the failing single-image run yields zero records and one error. -/
theorem batch_isolates_item_failures_witness :
    countAttempts (handleFileUpload [pEx] batchEx) = 5 ∧
    countRecords (handleFileUpload [pEx] batchEx) = 4 ∧
    countErrors (handleFileUpload [pEx] batchEx) = 1 ∧
    countAttempts (handleFileUpload [pEx] singleFailEx) = 1 ∧
    countRecords (handleFileUpload [pEx] singleFailEx) = 0 ∧
    countErrors (handleFileUpload [pEx] singleFailEx) = 1 := by
  have h5 := batch_isolates_item_failures pEx [] batchEx (by decide)
  have h1 := batch_isolates_item_failures pEx [] singleFailEx (by decide)
  exact ⟨h5.1.trans (by decide), h5.2.1.trans (by decide), h5.2.2.trans (by decide),
    h1.1.trans (by decide), h1.2.1.trans (by decide), h1.2.2.trans (by decide)⟩

/-- A successful item whose geolocation callback fires after 3000 ms
(a platform timeout resolving to no coordinates) and whose classification
call takes 500 ms. -/
def envSlowGeo : ItemEnv := successEnv none 3000 oUnknown 500 "r3" 0

/-- C3 counterexample: with the geolocation callback firing at 3000 ms and
a classification call of exactly 500 ms, the recorded `analysisTime` is the
sum of the two waits, 3.5 seconds — not approximately 0.5 — because the
source awaits the geolocation promise to completion before issuing the
classification call; the two operations are not concurrent. -/
theorem elapsed_time_counterexample :
    analysisTimes (captureAndAnalyze [pEx] "img" envSlowGeo).1 =
      [((3000 + 500 : Nat) : Rat) / 1000] ∧
    ((3000 + 500 : Nat) : Rat) / 1000 = 7 / 2 ∧
    ¬ (((7 : Rat) / 2) - 1 / 2 ≤ 1 / 4) := by
  refine ⟨rfl, by norm_num, by norm_num⟩

/-- C3 amended: the Geolocation Resolver and the Classification Client run
sequentially — the geolocation promise is awaited before the classification
call is issued — and the recorded elapsed time of the item is the wall-clock sum
of the geolocation wait and the classification wait, in seconds. -/
theorem elapsed_is_sum_of_sequential_waits (p : PlantProfile)
    (ps : List PlantProfile) (image : String) (coords : Option Coords)
    (o : RawOutcome) (gMs cMs : Nat) (gid : String) (ts : Nat) :
    analysisTimes
        (captureAndAnalyze (p :: ps) image (successEnv coords gMs o cMs gid ts)).1 =
      [((gMs + cMs : Nat) : Rat) / 1000] := rfl

/-- An item whose platform geolocation call never invokes a callback. -/
def envSilent : ItemEnv :=
  { geo := GeoBehavior.silent
    geoMs := 0
    service := CallOutcome.resolve (ServiceResponse.parsed oUnknown)
    classifyMs := 500
    genId := "r0"
    now := 0 }

/-- C6 counterexample: a platform geolocation call that never invokes a
callback leaves the wrapping promise unsettled forever — there is no
competing timer in the source, so the item blocks indefinitely instead of
resolving to the absent value within 3000 ms; and when the geolocation
capability is absent the promise rejects, propagating an error instead of
returning the absent value. -/
theorem geolocation_unbounded_counterexample :
    awaitCoords GeoBehavior.silent = GeoResult.neverSettles ∧
    GeoResult.neverSettles ≠ GeoResult.resolved none ∧
    awaitCoords GeoBehavior.noCapability = GeoResult.rejectedError ∧
    GeoResult.rejectedError ≠ GeoResult.resolved none ∧
    (captureAndAnalyze [pEx] "img" envSilent).2 = false := by decide

/-- C6 amended: whenever the platform invokes a geolocation callback the
promise resolves — the error callback (permission denial or
platform-reported timeout) yields the absent value and success yields the
coordinates, never a rejection; but an absent geolocation capability
rejects the promise, and a platform call that never invokes a callback
leaves it unsettled forever: the 3000 ms bound is delegated to the
timeout option of the platform itself, not enforced by the code. -/
theorem geolocation_callback_absorbed (c : Option Coords) :
    awaitCoords (GeoBehavior.answers c) = GeoResult.resolved c ∧
    awaitCoords (GeoBehavior.answers c) ≠ GeoResult.rejectedError ∧
    awaitCoords (GeoBehavior.answers c) ≠ GeoResult.neverSettles ∧
    awaitCoords GeoBehavior.noCapability = GeoResult.rejectedError ∧
    awaitCoords GeoBehavior.silent = GeoResult.neverSettles := by
  refine ⟨rfl, ?_, ?_, rfl, rfl⟩ <;> simp [awaitCoords]

/-- A successful item environment with a 1000 ms classification call. -/
def envQuick : ItemEnv := successEnv none 0 oUnknown 1000 "r9" 42

/-- C8 counterexample: the record handed to the Result Sink on success
carries `none` (JS `undefined`) in both user flags — the record
literal in the source omits `isFavorite` and `isIncorrect` entirely rather
than setting them to `false`. -/
theorem flags_absent_counterexample :
    recordFlags (captureAndAnalyze [pEx] "img" envQuick).1 = [(none, none)] ∧
    ((none : Option Bool) ≠ some false) :=
  ⟨rfl, by decide⟩

/-- C8 amended: on classification success the item hands the Result Sink,
immediately and before any later item is processed, exactly one record
carrying the generated id, the outcome fields as the service supplied them,
the timestamp, the elapsed seconds, the resolved-or-absent coordinates and
the source image, with both user flags left absent (JS `undefined`, which
every consumer in the repository reads as false) rather than set to
`false`. -/
theorem record_construction_and_handoff (p : PlantProfile)
    (ps : List PlantProfile) (image : String) (coords : Option Coords)
    (o : RawOutcome) (gMs cMs : Nat) (gid : String) (ts : Nat)
    (rest : List (String × ItemEnv)) :
    captureAndAnalyze (p :: ps) image (successEnv coords gMs o cMs gid ts) =
      ([Event.record (analysisRecord image (successEnv coords gMs o cMs gid ts) o coords)],
        true) ∧
    analysisRecord image (successEnv coords gMs o cMs gid ts) o coords =
      { id := gid
        name := o.name
        scientificName := o.scientificName
        isInvasive := o.isInvasive
        confidence := o.confidence
        timestamp := ts
        analysisTime := ((gMs + cMs : Nat) : Rat) / 1000
        coordinates := coords
        imageUrl := image
        matchedProfileId := o.matchedProfileId
        isFavorite := none
        isIncorrect := none } ∧
    handleFileUpload (p :: ps) ((image, successEnv coords gMs o cMs gid ts) :: rest) =
      Event.progress 0 (rest.length + 1) :: Event.progress 1 (rest.length + 1) ::
        Event.record (analysisRecord image (successEnv coords gMs o cMs gid ts) o coords) ::
          runBatchFrom (p :: ps) (rest.length + 1) 1 rest :=
  ⟨rfl, rfl, rfl⟩

/-! ## History collaborator (`src/App.tsx` and the History component) -/

/-- `handleAnalysisResult` from `App.tsx`: prepends the new record
(`[result, ...prev]`). -/
def handleAnalysisResult (result : PlantAnalysis) (prev : List PlantAnalysis) :
    List PlantAnalysis := result :: prev

/-- `clearHistory` from `App.tsx`: resets the list to empty. -/
def clearHistory : List PlantAnalysis := []

/-- The three bulk actions of the History component. -/
inductive BulkAction where
  | favorite
  | incorrect
  | delete
deriving DecidableEq, Repr

/-- JS truthiness of an optional boolean field: `undefined` is falsy. -/
def jsTruthy (b : Option Bool) : Bool := b.getD false

/-- `applyBulkAction` from `src/unnamed/part_002`: `delete` filters out the
selected records; `favorite`/`incorrect` map over the list, replacing each
selected record by a copy whose one flag is set to the JS negation of its
current value (`!item.isFavorite`, where `!undefined` is `true`). -/
def applyBulkAction (action : BulkAction) (selectedIds : List String)
    (history : List PlantAnalysis) : List PlantAnalysis :=
  match action with
  | BulkAction.delete =>
      history.filter fun item => !(selectedIds.contains item.id)
  | BulkAction.favorite =>
      history.map fun item =>
        if selectedIds.contains item.id then
          { item with isFavorite := some (!(jsTruthy item.isFavorite)) }
        else item
  | BulkAction.incorrect =>
      history.map fun item =>
        if selectedIds.contains item.id then
          { item with isIncorrect := some (!(jsTruthy item.isIncorrect)) }
        else item

/-- C9: accepting a new analysis record prepends it to the front of the
history; bulk flag-toggling leaves the sequence of record ids unchanged
(same records, same relative order), bulk deletion yields a sublist of the
original history (surviving records keep their relative order), and
clearing yields the empty list. -/
theorem history_newest_first_preserved (r : PlantAnalysis)
    (sel : List String) (h : List PlantAnalysis) :
    handleAnalysisResult r h = r :: h ∧
    (applyBulkAction BulkAction.favorite sel h).map PlantAnalysis.id =
      h.map PlantAnalysis.id ∧
    (applyBulkAction BulkAction.incorrect sel h).map PlantAnalysis.id =
      h.map PlantAnalysis.id ∧
    (applyBulkAction BulkAction.delete sel h).Sublist h ∧
    clearHistory = [] := by
  refine ⟨rfl, ?_, ?_, ?_, rfl⟩
  · simp only [applyBulkAction, List.map_map]
    refine List.map_congr_left ?_
    intro a _
    simp only [Function.comp_apply]
    split <;> rfl
  · simp only [applyBulkAction, List.map_map]
    refine List.map_congr_left ?_
    intro a _
    simp only [Function.comp_apply]
    split <;> rfl
  · simp only [applyBulkAction]
    exact List.filter_sublist h

/-- C10: the bulk favorite (resp. incorrect) action keeps the history
length, and at every position the resulting record is the original record
with only its `isFavorite` (resp. `isIncorrect`) field replaced when the
id of the record is selected, and is exactly the original record when it is
not. -/
theorem bulk_toggle_frame (sel : List String) (h : List PlantAnalysis) :
    (applyBulkAction BulkAction.favorite sel h).length = h.length ∧
    (applyBulkAction BulkAction.incorrect sel h).length = h.length ∧
    (∀ i : Fin h.length,
      (applyBulkAction BulkAction.favorite sel h)[i.val]? =
        some (if sel.contains (h.get i).id then
                { h.get i with isFavorite := some (!(jsTruthy (h.get i).isFavorite)) }
              else h.get i)) ∧
    (∀ i : Fin h.length,
      (applyBulkAction BulkAction.incorrect sel h)[i.val]? =
        some (if sel.contains (h.get i).id then
                { h.get i with isIncorrect := some (!(jsTruthy (h.get i).isIncorrect)) }
              else h.get i)) := by
  refine ⟨by simp [applyBulkAction], by simp [applyBulkAction], ?_, ?_⟩ <;>
  · intro i
    simp [applyBulkAction, List.getElem?_map, List.get_eq_getElem,
      List.getElem?_eq_getElem]

end FloraID
